import Mathlib

/-!
Verification development for the Nova driver dashboard (src/src/app/page.tsx).

The client-side reconciliation logic of the driver panel is embedded
shallowly: React refs and setState calls become explicit state records,
browser-storage writes become fields of the state, and wall-clock reads
(new Date().toISOString()) become an explicit `now` parameter.  JavaScript
values of loose type (string | null | undefined, numbers that may be 0 or
NaN) are modelled with Option and a dedicated inductive for timestamp
fields so that JS truthiness checks can be translated exactly.
Presentation-only effects (flash animations, toast ids, timer handles) are
elided; user-visible toast emissions are kept as explicit outputs.
-/

namespace Nova

/-- JS truthiness of a `string | null | undefined` value: null, undefined
and the empty string are falsy. -/
def optStrTruthy : Option String → Bool
  | none => false
  | some s => s ≠ ""

/-- Whitespace recognised by JS String.prototype.trim (the characters that
occur in this code base's inputs). -/
def isJsWs (c : Char) : Bool :=
  c = ' ' ∨ c = '\t' ∨ c = '\n' ∨ c = '\r'

/-- Drop leading whitespace characters from a character list. -/
def dropLeadingWs : List Char → List Char
  | [] => []
  | c :: rest => if isJsWs c then dropLeadingWs rest else c :: rest

/-- Model of JS String.prototype.trim: strip leading and trailing
whitespace. -/
def jsTrim (s : String) : String :=
  ⟨((dropLeadingWs s.data).reverse |> dropLeadingWs).reverse⟩

/-- Arabic status labels from the statusLabels record in page.tsx. -/
def statusLabels (s : String) : Option String :=
  if s = "pending" then some "قيد الانتظار"
  else if s = "accepted" then some "تم القبول"
  else if s = "delivering" then some "قيد التوصيل"
  else if s = "delivered" then some "تم التسليم"
  else if s = "cancelled" then some "ملغي"
  else if s = "declined" then some "مرفوض"
  else none

/-- formatStatus from page.tsx: falsy value renders as a dash, otherwise
the label table with the raw value as fallback. -/
def formatStatus : Option String → String
  | none => "-"
  | some s => if s = "" then "-" else (statusLabels s).getD s

/-- The fields of an Order that the reconciliation logic reads or writes.
Monetary and purely presentational fields are elided. -/
structure Order where
  id : String
  driver_id : Option String := none
  status : Option String := none
  customer_location_text : Option String := none
  created_at : Option String := none
  delivered_at : Option String := none
  cancelled_at : Option String := none
  cancel_reason : Option String := none
  cancelled_by : Option String := none
  deriving Repr, DecidableEq

/-- The patch built in the order_status branch of handleRealtime: each
field is the payload value when it was a string and null otherwise, so the
merge always overwrites all six fields. -/
structure StatusPatch where
  status : Option String := none
  driver_id : Option String := none
  delivered_at : Option String := none
  cancelled_at : Option String := none
  cancel_reason : Option String := none
  cancelled_by : Option String := none
  deriving Repr, DecidableEq

/-- DeclinedOrder from page.tsx: an order snapshot plus the decline
instant. -/
structure DeclinedOrder where
  ord : Order
  declined_at : String
  deriving Repr, DecidableEq

/-- NotificationItem from page.tsx. -/
structure NotificationItem where
  id : String
  title : String
  description : Option String := none
  created_at : String
  deriving Repr, DecidableEq

/-- User-visible toast emissions of the reconciler and the command paths.
The rendered Arabic strings that interpolate an order number are carried
structurally. -/
inductive Toast where
  | newOrder (orderId : String)
  | statusChanged (orderId : String) (status : Option String)
  | errorMsg (msg : String)
  | successMsg (msg : String)
  deriving Repr, DecidableEq

/-- The ts field of a realtime payload, as the JS checks in
shouldApplyOrderEvent observe it: a missing/null field, a finite number, a
non-finite number (NaN or an infinity), or a string together with its
Date.parse result (none when Date.parse yields NaN). -/
inductive TsField where
  | absent
  | num (v : Int)
  | nonfinite
  | str (s : String) (parsed : Option Int)
  deriving Repr, DecidableEq

/-- The parsed value the claim reasons about: the finite numeric value of
the field when there is one. -/
def tsParsed : TsField → Option Int
  | .num v => some v
  | .str _ p => p
  | _ => none

/-- JS truthiness of the ts field (0, null, undefined and the empty string
are falsy; NaN is falsy but behaves identically to the truthy infinities
here, so non-finite numbers are grouped). -/
def tsTruthy : TsField → Bool
  | .absent => false
  | .num v => v ≠ 0
  | .nonfinite => true
  | .str s _ => s ≠ ""

/-- orderEventTsRef: a JS Map from order id to last-applied timestamp,
kept in insertion order. -/
abbrev TsMap := List (String × Int)

/-- Map.get with the code's default: orderEventTsRef.current.get(orderId)
?? 0. -/
def lookupTs : TsMap → String → Int
  | [], _ => 0
  | (k', v') :: rest, k => if k' = k then v' else lookupTs rest k

/-- Map.set: replace the entry in place when the key is present, append
otherwise. -/
def setTs : TsMap → String → Int → TsMap
  | [], k, v => [(k, v)]
  | (k', v') :: rest, k, v =>
      if k' = k then (k, v) :: rest else (k', v') :: setTs rest k v

/-- shouldApplyOrderEvent from page.tsx, returning the decision together
with the (possibly updated) timestamp map.  The first guard is the JS
truthiness test on the raw ts field, so a numeric 0 and an empty string
short-circuit to "apply" without recording; a non-finite parse also
applies without recording; otherwise the event is applied iff its value is
strictly greater than the recorded one, updating the map. -/
def shouldApplyOrderEvent (m : TsMap) (orderId : String) (ts : TsField) :
    Bool × TsMap :=
  match ts with
  | .absent => (true, m)
  | .num v =>
      if v = 0 then (true, m)
      else if v ≤ lookupTs m orderId then (false, m)
      else (true, setTs m orderId v)
  | .nonfinite => (true, m)
  | .str s parsed =>
      if s = "" then (true, m)
      else
        match parsed with
        | none => (true, m)
        | some v =>
            if v ≤ lookupTs m orderId then (false, m)
            else (true, setTs m orderId v)

/-- allowOrderForDriver from page.tsx: the ownership/decline visibility
filter.  driver is assumed logged in (the component returns early
otherwise). -/
def allowOrderForDriver (me : String) (declined : List String)
    (o : Order) : Bool :=
  if o.status = some "pending" then
    if optStrTruthy o.driver_id ∧ o.driver_id ≠ some me then false
    else if ¬ optStrTruthy o.driver_id ∧ o.id ∈ declined then false
    else true
  else if optStrTruthy o.driver_id ∧ o.driver_id ≠ some me then false
  else true

/-- The driver-session state touched by the reconciler: the rendered order
list (ordersRef/setOrders), the decline set (declinedOrdersRef) together
with its persisted copy (the browser-storage key written by
persistDeclines), the first-load flag (hasLoadedRef), the last-applied
timestamp map (orderEventTsRef) and the notification feed. -/
structure DriverState where
  orders : List Order
  declined : List String
  persistedDeclined : List String
  hasLoaded : Bool
  tsMap : TsMap
  notifications : List NotificationItem
  deriving Repr, DecidableEq

/-- pushNotification from page.tsx, at a call site that passes an explicit
key: the entry replaces any feed item with the same id, is prepended, and
the feed is truncated to 20. -/
def pushNotification (now key title : String) (desc : Option String)
    (feed : List NotificationItem) : List NotificationItem :=
  (⟨key, title, desc, now⟩ :: feed.filter (fun it => it.id ≠ key)).take 20

/-- The purge condition of the decline-set bookkeeping loop in applyOrders:
order.status !== "pending" || order.driver_id === driver.id (strict
equality on both sides). -/
def declinePurgeCond (me : String) (o : Order) : Bool :=
  o.status ≠ some "pending" ∨ o.driver_id = some me

/-- applyOrders from page.tsx.  Returns the new state and the toasts
emitted.  Steps, in source order: diff toasts against the previous list,
purge the decline set of ids whose order left pending-or-unassigned in the
code's sense, persist the decline set when it changed, then filter the
incoming list through allowOrderForDriver using the purged set. -/
def applyOrders (me : String) (next : List Order) (showToasts : Bool)
    (st : DriverState) : DriverState × List Toast :=
  let prev := st.orders
  let toasts :=
    if showToasts then
      next.filterMap (fun o =>
        match prev.find? (fun p => p.id = o.id) with
        | none => some (Toast.newOrder o.id)
        | some p =>
            if p.status ≠ o.status then some (Toast.statusChanged o.id o.status)
            else none)
    else []
  let declined' :=
    st.declined.filter (fun i =>
      !(next.any (fun o => o.id == i && declinePurgeCond me o)))
  let persisted' :=
    if declined' = st.declined then st.persistedDeclined else declined'
  let filtered := next.filter (allowOrderForDriver me declined')
  ({ st with orders := filtered, declined := declined',
             persistedDeclined := persisted' }, toasts)

/-- Replace the first list element with the given id (TS findIndex + index
assignment); none when the id is absent. -/
def replaceFirst (oid : String) (merge : Order → Order) :
    List Order → Option (List Order)
  | [] => none
  | o :: rest =>
      if o.id = oid then some (merge o :: rest)
      else (replaceFirst oid merge rest).map (o :: ·)

/-- upsertOrder's list step: merge into the first order with the id, or
prepend the fresh order. -/
def upsertOrderList (orders : List Order) (oid : String)
    (merge : Order → Order) (fresh : Order) : List Order :=
  match replaceFirst oid merge orders with
  | some l => l
  | none => fresh :: orders

/-- Merging the order_status patch into an existing order: the JS object
spread overwrites all six patched fields (each key is always present, with
null defaults). -/
def applyStatusPatch (o : Order) (p : StatusPatch) : Order :=
  { o with status := p.status, driver_id := p.driver_id,
           delivered_at := p.delivered_at, cancelled_at := p.cancelled_at,
           cancel_reason := p.cancel_reason, cancelled_by := p.cancelled_by }

/-- The order inserted when an order_status event names an unknown id: it
has only the patched fields. -/
def mkOrderFromPatch (oid : String) (p : StatusPatch) : Order :=
  { id := oid, driver_id := p.driver_id, status := p.status,
    delivered_at := p.delivered_at, cancelled_at := p.cancelled_at,
    cancel_reason := p.cancel_reason, cancelled_by := p.cancelled_by }

/-- isDriverBusy from page.tsx: some order is assigned to this driver and
in none of pending/delivered/cancelled. -/
def isDriverBusy (me : String) (orders : List Order) : Bool :=
  orders.any (fun o =>
    o.driver_id = some me ∧ o.status ≠ some "pending" ∧
    o.status ≠ some "delivered" ∧ o.status ≠ some "cancelled")

/-- The realtime events of the driver channel that touch the order list.
An order_status payload carries its id, the field patch, and the raw ts
field; the patch's status is some s exactly when payload.status was a
string, which also gates the feed entry. -/
inductive RtEvent where
  | orderCreated (order : Order) (ts : TsField)
  | orderStatus (orderId : String) (patch : StatusPatch) (ts : TsField)
  deriving Repr, DecidableEq

/-- Observable outputs of one handleRealtime invocation: emitted toasts
and whether a background snapshot fetch was requested. -/
structure RtOutput where
  toasts : List Toast
  fetchRequested : Bool
  deriving Repr, DecidableEq

/-- No outputs. -/
def emptyRtOutput : RtOutput := ⟨[], false⟩

/-- handleRealtime from page.tsx, restricted to the two order branches
(the wallet and driver_status branches do not touch the order pipeline).
Mirrors the source line by line: the timestamp guard runs first in both
branches; the order_created branch then drops events for orders assigned
to another driver and pool orders while the driver is busy; otherwise both
branches upsert and re-run applyOrders, then append a feed entry. -/
def handleRealtime (me now : String) (st : DriverState) (ev : RtEvent) :
    DriverState × RtOutput :=
  match ev with
  | .orderCreated o ts =>
      match shouldApplyOrderEvent st.tsMap o.id ts with
      | (false, m') => ({ st with tsMap := m' }, emptyRtOutput)
      | (true, m') =>
          let st1 := { st with tsMap := m' }
          if optStrTruthy o.driver_id ∧ o.driver_id ≠ some me then
            (st1, emptyRtOutput)
          else if ¬ optStrTruthy o.driver_id ∧ isDriverBusy me st1.orders then
            (st1, emptyRtOutput)
          else
            let next := upsertOrderList st1.orders o.id (fun _ => o) o
            let res := applyOrders me next st1.hasLoaded st1
            let st2 := { res.1 with hasLoaded := true }
            let feed :=
              pushNotification now ("order:" ++ o.id) "طلب جديد"
                (some (o.customer_location_text.getD "تم تعيين طلب جديد."))
                st2.notifications
            let st3 := { st2 with notifications := feed }
            (st3, ⟨res.2, false⟩)
  | .orderStatus oid p ts =>
      match shouldApplyOrderEvent st.tsMap oid ts with
      | (false, m') => ({ st with tsMap := m' }, emptyRtOutput)
      | (true, m') =>
          let st1 := { st with tsMap := m' }
          let existing := st1.orders.find? (fun o => o.id = oid)
          let next := upsertOrderList st1.orders oid
            (fun o => applyStatusPatch o p) (mkOrderFromPatch oid p)
          let res := applyOrders me next st1.hasLoaded st1
          let st2 := { res.1 with hasLoaded := true }
          let fetch :=
            match existing with
            | none => true
            | some e => ¬ optStrTruthy e.customer_location_text
          let feed :=
            pushNotification now ("order:" ++ oid) "تحديث حالة الطلب"
              (some ("الحالة الآن: " ++ formatStatus p.status))
              st2.notifications
          let st3 :=
            if p.status.isSome then { st2 with notifications := feed } else st2
          (st3, ⟨res.2, fetch⟩)

/-- The snapshot entry recordDecline builds from the order: the driver's
id, the effective cancel reason, status declined, and the decline
instant. -/
def declineSnapshot (me now : String) (o : Order)
    (creason : Option String) : DeclinedOrder :=
  ⟨{ o with driver_id := some me, cancel_reason := creason,
            status := some "declined" }, now⟩

/-- recordDecline from page.tsx.  Returns the new in-memory history and
the copy written to browser storage by persistDeclinedHistory (which
stores next.slice(0, 80)).  The effective reason is the argument when
given, falling back to the order's own cancel_reason (reason ??
order.cancel_reason ?? null). -/
def recordDecline (me now : String) (history : List DeclinedOrder)
    (o : Order) (reason : Option String) :
    List DeclinedOrder × List DeclinedOrder :=
  let fallbackReason : Option String :=
    match reason with
    | some r => some r
    | none => o.cancel_reason
  let entry := declineSnapshot me now o fallbackReason
  let next := (entry :: history.filter (fun it => it.ord.id ≠ o.id)).take 80
  (next, next.take 80)

/-- The body of the PATCH orders/id/status command, as built in
updateStatus. -/
structure StatusRequest where
  orderId : String
  status : String
  driver_id : String
  cancel_reason : Option String
  deriving Repr, DecidableEq

/-- The server's answer as the client reads it: the truthiness of data.ok
and the optional data.error text. -/
structure ServerResp where
  ok : Bool
  error : Option String
  deriving Repr, DecidableEq

/-- Observable outcome of one updateStatus invocation: the order list
afterwards, the HTTP commands issued, the toasts shown, and whether the
on-success resync (refreshDriver + fetchOrders) was triggered. -/
structure UpdateResult where
  orders : List Order
  requests : List StatusRequest
  toasts : List Toast
  resyncRequested : Bool
  deriving Repr, DecidableEq

/-- The cancel-reason computation in updateStatus: the prompt result is
null when dismissed; a truthy input is trimmed, anything falsy becomes the
empty string (input ? input.trim() : ""). -/
def jsPromptReason : Option String → String
  | none => ""
  | some s => if s = "" then "" else jsTrim s

/-- updateOrderLocal from page.tsx: merge the patch into the order when
present (otherwise return unchanged), then re-filter through
allowOrderForDriver.  The patch at its only call site sets status and
driver_id. -/
def updateOrderLocal (me : String) (declined : List String)
    (orders : List Order) (oid : String) (newStatus : String) : List Order :=
  let merge := fun o : Order =>
    { o with status := some newStatus, driver_id := some me }
  match replaceFirst oid merge orders with
  | none => orders
  | some next => next.filter (allowOrderForDriver me declined)

/-- updateStatus from page.tsx.  The per-order busy flag and the
cancellation-reason gate run before any request; the single request is
then answered by response (none models a network-level failure).  The
loading toast and the busy-flag restore in finally are elided; outcome
toasts are kept. -/
def updateStatus (me : String) (declined : List String)
    (orders : List Order) (busy : Bool) (oid status : String)
    (promptInput : Option String) (response : Option ServerResp) :
    UpdateResult :=
  if busy then ⟨orders, [], [], false⟩
  else if status = "cancelled" ∧ jsPromptReason promptInput = "" then
    ⟨orders, [], [Toast.errorMsg "سبب الإلغاء مطلوب"], false⟩
  else
    let cancelReason : Option String :=
      if status = "cancelled" then some (jsPromptReason promptInput) else none
    let req : StatusRequest := ⟨oid, status, me, cancelReason⟩
    match response with
    | none => ⟨orders, [req], [Toast.errorMsg "خطأ في الشبكة"], false⟩
    | some resp =>
        if resp.ok then
          ⟨updateOrderLocal me declined orders oid status, [req],
           [Toast.successMsg "تم تحديث الحالة"], true⟩
        else
          ⟨orders, [req],
           [Toast.errorMsg (resp.error.getD "تعذر تحديث الطلب")], false⟩

/-- The reconnect delay computed in socket.onclose:
Math.min(30000, 1000 * 2 ** retry). -/
def reconnectDelay (retry : Nat) : Nat := min 30000 (1000 * 2 ^ retry)

/-- socket.onclose of the driver channel: schedule a reconnect after the
backoff delay computed from the current counter, then increment it. -/
def socketOnClose (retry : Nat) : Nat × Nat := (reconnectDelay retry, retry + 1)

/-- Both onopen handlers reset the attempt counter to 0. -/
def socketOnOpenResetRetry (_retry : Nat) : Nat := 0

/-- The attempt counter after n consecutive failures starting from a fresh
connection (retry initialised to 0). -/
def retryAfterFailures : Nat → Nat
  | 0 => 0
  | n + 1 => (socketOnClose (retryAfterFailures n)).2

/-- What the driver channel's socket.onopen does (page.tsx lines 943-951):
reset the counter, restart the keepalive ping interval — and nothing
else. -/
structure DriverOnOpenEffect where
  retry : Nat
  pingTimerActive : Bool
  fetchIssued : Bool
  deriving Repr, DecidableEq

/-- Embedding of the driver channel onopen handler. -/
def driverSocketOnOpen (_retry : Nat) : DriverOnOpenEffect :=
  { retry := 0, pingTimerActive := true, fetchIssued := false }

/-- What the store channel's socket.onopen does (page.tsx lines 551-555):
reset the counter, mark the channel connected, and fetch the order
snapshot. -/
structure StoreOnOpenEffect where
  retry : Nat
  realtimeStatus : String
  fetchIssued : Bool
  deriving Repr, DecidableEq

/-- Embedding of the store channel onopen handler. -/
def storeSocketOnOpen (_retry : Nat) : StoreOnOpenEffect :=
  { retry := 0, realtimeStatus := "connected", fetchIssued := true }

/-! ### Helper lemmas about the timestamp map and guard -/

theorem lookupTs_setTs_self (m : TsMap) (k : String) (v : Int) :
    lookupTs (setTs m k v) k = v := by
  induction m with
  | nil => simp [setTs, lookupTs]
  | cons hd tl ih =>
      obtain ⟨k', v'⟩ := hd
      by_cases h : k' = k
      · simp [setTs, lookupTs, h]
      · simp [setTs, lookupTs, h, ih]

/-- A truthy, parseable timestamp strictly above the recorded one is
applied and recorded. -/
theorem shouldApply_records (m : TsMap) (oid : String) (ts : TsField)
    (v : Int) (hp : tsParsed ts = some v) (ht : tsTruthy ts = true)
    (hlt : lookupTs m oid < v) :
    shouldApplyOrderEvent m oid ts = (true, setTs m oid v) := by
  have hn : ¬ (v ≤ lookupTs m oid) := not_le.mpr hlt
  cases ts with
  | absent => simp [tsParsed] at hp
  | nonfinite => simp [tsParsed] at hp
  | num w =>
      simp only [tsParsed, Option.some.injEq] at hp
      subst hp
      simp only [tsTruthy, ne_eq, decide_eq_true_eq] at ht
      simp [shouldApplyOrderEvent, ht, hn]
  | str s parsed =>
      simp only [tsParsed] at hp
      subst hp
      simp only [tsTruthy, ne_eq, decide_eq_true_eq] at ht
      simp [shouldApplyOrderEvent, ht, hn]

/-- A truthy, parseable timestamp not above the recorded one is rejected
and nothing is recorded. -/
theorem shouldApply_stale (m : TsMap) (oid : String) (ts : TsField)
    (v : Int) (hp : tsParsed ts = some v) (ht : tsTruthy ts = true)
    (hge : ¬ lookupTs m oid < v) :
    shouldApplyOrderEvent m oid ts = (false, m) := by
  have hle : v ≤ lookupTs m oid := not_lt.mp hge
  cases ts with
  | absent => simp [tsParsed] at hp
  | nonfinite => simp [tsParsed] at hp
  | num w =>
      simp only [tsParsed, Option.some.injEq] at hp
      subst hp
      simp only [tsTruthy, ne_eq, decide_eq_true_eq] at ht
      simp [shouldApplyOrderEvent, ht, hle]
  | str s parsed =>
      simp only [tsParsed] at hp
      subst hp
      simp only [tsTruthy, ne_eq, decide_eq_true_eq] at ht
      simp [shouldApplyOrderEvent, ht, hle]

/-- A falsy or unparseable timestamp field is always applied without
recording anything. -/
theorem shouldApply_passthrough (m : TsMap) (oid : String) (ts : TsField)
    (h : tsParsed ts = none ∨ tsTruthy ts = false) :
    shouldApplyOrderEvent m oid ts = (true, m) := by
  cases ts with
  | absent => rfl
  | nonfinite => rfl
  | num v =>
      rcases h with h | h
      · simp [tsParsed] at h
      · simp only [tsTruthy, ne_eq, decide_eq_false_iff_not, not_not] at h
        simp [shouldApplyOrderEvent, h]
  | str s parsed =>
      rcases h with h | h
      · simp only [tsParsed] at h
        subst h
        by_cases hs : s = "" <;> simp [shouldApplyOrderEvent, hs]
      · simp only [tsTruthy, ne_eq, decide_eq_false_iff_not, not_not] at h
        simp [shouldApplyOrderEvent, h]

/-! ### Claim theorems -/

/-- C5: the reconnect delay before the n-th retry (n starting at 0) equals
min(30000 ms, 1000 ms * 2^n); the delays grow monotonically and cap at
30000 ms, and a successful open resets the attempt counter so the next
failure waits 1000 ms again. -/
theorem reconnect_backoff_formula_monotone_cap_reset :
    (∀ n, retryAfterFailures n = n)
    ∧ (∀ n, (socketOnClose (retryAfterFailures n)).1
        = min 30000 (1000 * 2 ^ n))
    ∧ (∀ n, reconnectDelay n ≤ reconnectDelay (n + 1))
    ∧ (∀ n, reconnectDelay n ≤ 30000)
    ∧ (∀ k, (socketOnClose (socketOnOpenResetRetry k)).1 = 1000)
    ∧ reconnectDelay 0 = 1000 ∧ reconnectDelay 1 = 2000
    ∧ reconnectDelay 2 = 4000 ∧ reconnectDelay 4 = 16000
    ∧ reconnectDelay 5 = 30000 ∧ reconnectDelay 9 = 30000 := by
  have hr : ∀ n, retryAfterFailures n = n := by
    intro n
    induction n with
    | zero => rfl
    | succ k ih => simp [retryAfterFailures, socketOnClose, ih]
  refine ⟨hr, fun n => by rw [hr n]; rfl, fun n => ?_, fun n => min_le_left _ _,
    fun k => by norm_num [socketOnClose, socketOnOpenResetRetry, reconnectDelay],
    by decide, by decide, by decide, by decide, by decide, by decide⟩
  exact min_le_min le_rfl
    (Nat.mul_le_mul (Nat.le_refl 1000)
      (Nat.pow_le_pow_right (by decide) (Nat.le_succ n)))

/-- C3: contrary to the claim, the driver channel's onopen handler only
resets the attempt counter and restarts the keepalive ping: it issues no
resynchronization fetch.  The store channel's otherwise analogous onopen
handler does fetch, which together with the spec shows the driver handler
is missing the resync. -/
theorem driver_onopen_issues_no_resync_fetch :
    ∀ retry : Nat,
      (driverSocketOnOpen retry).retry = 0
      ∧ (driverSocketOnOpen retry).pingTimerActive = true
      ∧ (driverSocketOnOpen retry).fetchIssued = false
      ∧ (storeSocketOnOpen retry).retry = 0
      ∧ (storeSocketOnOpen retry).fetchIssued = true :=
  fun _ => ⟨rfl, rfl, rfl, rfl, rfl⟩

/-- C1: order visibility is a pure function of (status, assigned-driver
id, decline-set membership): pending and unassigned is visible iff not
declined; pending and assigned to another driver is never visible; any
order assigned to this driver is visible regardless of the decline set; an
order assigned to driver a in a non-pending state is invisible to driver
b; and the list rendered by applyOrders contains exactly the incoming
orders that pass this filter. -/
theorem order_visibility_pure_function (me : String)
    (declined : List String) (hme : me ≠ "") :
    (∀ o : Order, o.status = some "pending" → o.driver_id = none →
        (allowOrderForDriver me declined o = true ↔ o.id ∉ declined))
    ∧ (∀ (o : Order) (d : String), o.status = some "pending" →
        o.driver_id = some d → d ≠ me → d ≠ "" →
        allowOrderForDriver me declined o = false)
    ∧ (∀ o : Order, o.driver_id = some me →
        allowOrderForDriver me declined o = true)
    ∧ (∀ (b : String) (o : Order) (a : String), o.status ≠ some "pending" →
        o.driver_id = some a → a ≠ b → a ≠ "" →
        allowOrderForDriver b declined o = false)
    ∧ (∀ o₁ o₂ : Order, o₁.status = o₂.status →
        o₁.driver_id = o₂.driver_id →
        (o₁.id ∈ declined ↔ o₂.id ∈ declined) →
        allowOrderForDriver me declined o₁
          = allowOrderForDriver me declined o₂)
    ∧ (∀ (st : DriverState) (next : List Order) (s : Bool) (o : Order),
        o ∈ ((applyOrders me next s st).1).orders ↔
          o ∈ next ∧
            allowOrderForDriver me ((applyOrders me next s st).1).declined o
              = true) := by
  refine ⟨?_, ?_, ?_, ?_, ?_, ?_⟩
  · intro o hs hd
    by_cases hm : o.id ∈ declined <;>
      simp [allowOrderForDriver, hs, hd, optStrTruthy, hm]
  · intro o d hs hd hdm hde
    simp [allowOrderForDriver, hs, hd, optStrTruthy, hdm, hde]
  · intro o hd
    by_cases hs : o.status = some "pending" <;>
      simp [allowOrderForDriver, hs, hd, optStrTruthy, hme]
  · intro b o a hs hd hab hae
    simp [allowOrderForDriver, hs, hd, optStrTruthy, hab, hae]
  · intro o₁ o₂ h1 h2 h3
    by_cases hm : o₁.id ∈ declined
    · have hm2 : o₂.id ∈ declined := h3.mp hm
      simp [allowOrderForDriver, h1, h2, hm, hm2]
    · have hm2 : o₂.id ∉ declined := fun h => hm (h3.mpr h)
      simp [allowOrderForDriver, h1, h2, hm, hm2]
  · intro st next s o
    simp [applyOrders, List.mem_filter]

/-- Witness for C1 at a concrete input: a pending unassigned order whose
id is in the decline set. -/
theorem order_visibility_pure_function_witness :
    allowOrderForDriver "d1" ["o9"]
        { id := "o9", status := some "pending" } = true
      ↔ "o9" ∉ ["o9"] :=
  (order_visibility_pure_function "d1" ["o9"] (by decide)).1
    { id := "o9", status := some "pending" } rfl rfl

/-- C2 counterexample: an event carrying the parseable numeric timestamp 0
is applied even when the recorded timestamp (here 10) is not smaller,
because the JS truthiness guard treats 0 like a missing field.  The claim
says a parseable timestamp is applied iff strictly greater than the
recorded one. -/
theorem ts_guard_claim_false_at_zero_timestamp :
    ¬ (∀ (m : TsMap) (oid : String) (ts : TsField) (v : Int),
        tsParsed ts = some v →
        (shouldApplyOrderEvent m oid ts).1 = decide (lookupTs m oid < v)) :=
  fun h => absurd (h [("X", 10)] "X" (.num 0) 0 rfl) (by decide)

/-- The initial state of the C2 scenario: order X is held by driver d1. -/
def c2ScenarioState : DriverState :=
  { orders := [{ id := "X", driver_id := some "d1",
                 status := some "accepted" }],
    declined := [], persistedDeclined := [], hasLoaded := true, tsMap := [],
    notifications := [] }

/-- First scenario event: X moves to delivering at ts 10. -/
def c2Ev1 : RtEvent :=
  .orderStatus "X" { status := some "delivering", driver_id := some "d1" }
    (.num 10)

/-- Second scenario event: a stale move of X back to accepted at ts 5. -/
def c2Ev2 : RtEvent :=
  .orderStatus "X" { status := some "accepted", driver_id := some "d1" }
    (.num 5)

/-- C2 (amended): for an event whose timestamp field is truthy and
parseable, the guard applies it iff the value is strictly greater than the
recorded one (initially 0), recording it exactly when applied; an event
whose timestamp field is absent, unparseable, or JS-falsy (notably the
number 0) is always applied without recording.  The concrete out-of-order
scenario holds: after (X, delivering, ts 10), the event (X, accepted,
ts 5) is a no-op and X stays delivering. -/
theorem ts_guard_strictly_newer_amended :
    (∀ (m : TsMap) (oid : String) (ts : TsField) (v : Int),
        tsParsed ts = some v → tsTruthy ts = true →
        ((shouldApplyOrderEvent m oid ts).1 = decide (lookupTs m oid < v)
         ∧ (lookupTs m oid < v →
              (shouldApplyOrderEvent m oid ts).2 = setTs m oid v)
         ∧ (¬ lookupTs m oid < v →
              (shouldApplyOrderEvent m oid ts).2 = m)))
    ∧ (∀ (m : TsMap) (oid : String) (ts : TsField),
        tsParsed ts = none ∨ tsTruthy ts = false →
        shouldApplyOrderEvent m oid ts = (true, m))
    ∧ (handleRealtime "d1" "t2"
          (handleRealtime "d1" "t1" c2ScenarioState c2Ev1).1 c2Ev2
        = ((handleRealtime "d1" "t1" c2ScenarioState c2Ev1).1, emptyRtOutput)
       ∧ ((handleRealtime "d1" "t2"
            (handleRealtime "d1" "t1" c2ScenarioState c2Ev1).1 c2Ev2).1.orders.map
              Order.status)
          = [some "delivering"]) := by
  refine ⟨?_, fun m oid ts h => shouldApply_passthrough m oid ts h, by decide⟩
  intro m oid ts v hp ht
  by_cases hlt : lookupTs m oid < v
  · rw [shouldApply_records m oid ts v hp ht hlt]
    simp [hlt]
  · rw [shouldApply_stale m oid ts v hp ht hlt]
    simp [hlt]

/-- Witness for the amended C2 at a concrete input: a fresh map and a
numeric timestamp 7. -/
theorem ts_guard_strictly_newer_amended_witness :
    (shouldApplyOrderEvent [] "X" (TsField.num 7)).1
      = decide (lookupTs [] "X" < 7) :=
  (ts_guard_strictly_newer_amended.1 [] "X" (.num 7) 7 rfl (by decide)).1

/-- The state of the C4 counterexample: o1 sits in the decline set. -/
def c4State : DriverState :=
  { orders := [], declined := ["o1"], persistedDeclined := ["o1"],
    hasLoaded := true, tsMap := [], notifications := [] }

/-- The order of the C4 counterexample: o1 is still pending but now
assigned to driver d2. -/
def c4Order : Order :=
  { id := "o1", status := some "pending", driver_id := some "d2" }

/-- C4 counterexample: o1 left pending-and-unassigned by becoming assigned
to another driver, yet reconciliation for driver d1 keeps o1 in the
decline set (and leaves the persisted copy untouched), contradicting the
claim that any assignment purges the identifier. -/
theorem decline_purge_claim_false_for_other_driver_assignment :
    c4Order.status = some "pending" ∧ c4Order.driver_id = some "d2"
    ∧ "o1" ∈ ((applyOrders "d1" [c4Order] false c4State).1).declined
    ∧ ((applyOrders "d1" [c4Order] false c4State).1).persistedDeclined
        = ["o1"] := by decide

/-- C4 (amended): a reconciled order purges its id from the decline set
exactly under the code's condition — its status is no longer pending or it
is assigned to this driver — and the purge is persisted.  An order that is
still pending but assigned to a different driver is not purged. -/
theorem decline_purge_amended (me : String) (next : List Order)
    (showToasts : Bool) (st : DriverState) (o : Order) (ho : o ∈ next)
    (hcond : declinePurgeCond me o = true) (hin : o.id ∈ st.declined) :
    o.id ∉ ((applyOrders me next showToasts st).1).declined
    ∧ ((applyOrders me next showToasts st).1).persistedDeclined
        = ((applyOrders me next showToasts st).1).declined := by
  have hany :
      (next.any fun o' => o'.id == o.id && declinePurgeCond me o') = true := by
    rw [List.any_eq_true]
    exact ⟨o, ho, by simp [hcond]⟩
  have hnotin : o.id ∉ st.declined.filter
      (fun i => !(next.any fun o' => o'.id == i && declinePurgeCond me o')) := by
    simp [List.mem_filter, hany]
  have hne : st.declined.filter
      (fun i => !(next.any fun o' => o'.id == i && declinePurgeCond me o'))
      ≠ st.declined := by
    intro heq
    exact hnotin (by rw [heq]; exact hin)
  constructor
  · simpa [applyOrders] using hnotin
  · simp [applyOrders, hne]

/-- Witness for the amended C4 at a concrete input: o1, declined earlier,
is delivered in the incoming snapshot and gets purged and persisted. -/
theorem decline_purge_amended_witness :
    "o1" ∉ ((applyOrders "d1" [{ id := "o1", status := some "delivered" }]
        false c4State).1).declined
    ∧ ((applyOrders "d1" [{ id := "o1", status := some "delivered" }]
        false c4State).1).persistedDeclined
      = ((applyOrders "d1" [{ id := "o1", status := some "delivered" }]
        false c4State).1).declined :=
  decline_purge_amended "d1" [{ id := "o1", status := some "delivered" }]
    false c4State { id := "o1", status := some "delivered" }
    (by simp) (by decide) (by decide)

/-- C7: when the status-transition command is answered with a non-ok
payload or fails at the network level, exactly one request was issued
(never retried), the local order list is untouched, no resync is
triggered, and an error toast carrying the server-provided text (or the
fixed fallback) is shown; the optimistic patch happens only in the success
branch. -/
theorem updateStatus_failure_no_retry_no_patch (me : String)
    (declined : List String) (orders : List Order) (oid status : String)
    (promptInput : Option String) (response : Option ServerResp)
    (hgate : ¬ (status = "cancelled" ∧ jsPromptReason promptInput = ""))
    (hfail : ∀ resp, response = some resp → resp.ok = false) :
    (updateStatus me declined orders false oid status promptInput
        response).orders = orders
    ∧ (updateStatus me declined orders false oid status promptInput
        response).requests
      = [⟨oid, status, me,
          if status = "cancelled" then some (jsPromptReason promptInput)
          else none⟩]
    ∧ (updateStatus me declined orders false oid status promptInput
        response).resyncRequested = false
    ∧ (response = none →
        (updateStatus me declined orders false oid status promptInput
          response).toasts = [Toast.errorMsg "خطأ في الشبكة"])
    ∧ (∀ resp, response = some resp →
        (updateStatus me declined orders false oid status promptInput
          response).toasts
        = [Toast.errorMsg (resp.error.getD "تعذر تحديث الطلب")]) := by
  cases response with
  | none => simp [updateStatus, hgate]
  | some resp =>
      have hok : resp.ok = false := hfail resp rfl
      simp [updateStatus, hgate, hok]

/-- Witness for C7 at a concrete input: a non-ok payload with error text
boom surfaces exactly that text. -/
theorem updateStatus_failure_witness :
    (updateStatus "d1" [] [] false "o1" "delivering" none
        (some ⟨false, some "boom"⟩)).toasts = [Toast.errorMsg "boom"] := by
  simpa using
    (updateStatus_failure_no_retry_no_patch "d1" [] [] "o1" "delivering" none
      (some ⟨false, some "boom"⟩) (by decide)
      (by intro resp h; cases h; rfl)).2.2.2.2 ⟨false, some "boom"⟩ rfl

/-- C8: a cancellation command requires a reason collected by prompt
before any request: if the trimmed reason is empty (in particular when the
prompt was dismissed) no request is sent and the order list is untouched;
any request that is sent carries the non-empty trimmed reason. -/
theorem cancel_requires_nonempty_reason (me : String)
    (declined : List String) (orders : List Order) (busy : Bool)
    (oid : String) (promptInput : Option String)
    (response : Option ServerResp) :
    (jsPromptReason promptInput = "" →
      (updateStatus me declined orders busy oid "cancelled" promptInput
          response).requests = []
      ∧ (updateStatus me declined orders busy oid "cancelled" promptInput
          response).orders = orders
      ∧ (updateStatus me declined orders busy oid "cancelled" promptInput
          response).resyncRequested = false)
    ∧ (∀ req, req ∈ (updateStatus me declined orders busy oid "cancelled"
          promptInput response).requests →
        req.cancel_reason = some (jsPromptReason promptInput)
        ∧ jsPromptReason promptInput ≠ "")
    ∧ (promptInput = none →
        (updateStatus me declined orders busy oid "cancelled" promptInput
          response).requests = []) := by
  cases busy with
  | true => simp [updateStatus]
  | false =>
      by_cases hg : jsPromptReason promptInput = ""
      · simp [updateStatus, hg]
      · refine ⟨fun h => absurd h hg, ?_, fun h => absurd (by rw [h]; rfl) hg⟩
        intro req hreq
        rcases response with _ | resp
        · simp [updateStatus, hg] at hreq
          subst hreq
          exact ⟨rfl, hg⟩
        · by_cases hok : resp.ok = true
          · simp [updateStatus, hg, hok] at hreq
            subst hreq
            exact ⟨rfl, hg⟩
          · simp [updateStatus, hg, hok] at hreq
            subst hreq
            exact ⟨rfl, hg⟩

/-- Witness for C8 at a concrete input: a whitespace-only prompt answer
trims to empty, so no request is issued. -/
theorem cancel_requires_nonempty_reason_witness :
    (updateStatus "d1" [] [] false "o1" "cancelled" (some "   ")
        none).requests = [] :=
  ((cancel_requires_nonempty_reason "d1" [] [] false "o1" (some "   ")
      none).1 (by decide)).1

/-- C9: recordDecline prepends the declined snapshot (status declined, the
given reason, the decline instant) after dropping any older entry with the
same order id, truncates to the 80 most recent, and persists exactly the
in-memory list; every surviving tail entry comes from the previous history
and has a different id. -/
theorem recordDecline_bounded_history (me now : String)
    (history : List DeclinedOrder) (o : Order) (reason : Option String)
    (r : String) (hr : reason = some r) :
    (recordDecline me now history o reason).1
      = (declineSnapshot me now o (some r)
          :: history.filter (fun it => it.ord.id ≠ o.id)).take 80
    ∧ (recordDecline me now history o reason).1.length ≤ 80
    ∧ (recordDecline me now history o reason).2
        = (recordDecline me now history o reason).1
    ∧ (recordDecline me now history o reason).1.head?
        = some (declineSnapshot me now o (some r))
    ∧ ∀ e ∈ (recordDecline me now history o reason).1.tail,
        e.ord.id ≠ o.id ∧ e ∈ history := by
  subst hr
  refine ⟨rfl, ?_, ?_, rfl, ?_⟩
  · exact List.length_take_le 80
      (declineSnapshot me now o (some r)
        :: history.filter (fun it => it.ord.id ≠ o.id))
  · simp [recordDecline, List.take_take]
  · intro e he
    have htail : (recordDecline me now history o (some r)).1.tail
        = (history.filter (fun it => it.ord.id ≠ o.id)).take 79 := rfl
    rw [htail] at he
    have hmemF : e ∈ history.filter (fun it => it.ord.id ≠ o.id) :=
      List.take_subset _ _ he
    rcases List.mem_filter.mp hmemF with ⟨hh, hp⟩
    exact ⟨by simpa using hp, hh⟩

/-- Witness for C9 at a concrete input: declining o7 with reason far in a
history that already holds an o7 snapshot replaces it at the front. -/
theorem recordDecline_bounded_history_witness :
    (recordDecline "d1" "t9"
        [⟨{ id := "o7", status := some "declined" }, "t1"⟩]
        { id := "o7", status := some "pending" } (some "far")).1
      = (declineSnapshot "d1" "t9" { id := "o7", status := some "pending" }
            (some "far")
          :: ([⟨{ id := "o7", status := some "declined" }, "t1"⟩] :
              List DeclinedOrder).filter
               (fun it => it.ord.id ≠ ({ id := "o7", status := some "pending" } : Order).id)).take 80 :=
  (recordDecline_bounded_history "d1" "t9"
    [⟨{ id := "o7", status := some "declined" }, "t1"⟩]
    { id := "o7", status := some "pending" } (some "far") "far" rfl).1

/-- A rejected timestamp guard short-circuits the order_status branch:
only the timestamp map field is (trivially) written back. -/
theorem handleRealtime_orderStatus_rejected (me now : String)
    (st : DriverState) (oid : String) (p : StatusPatch) (ts : TsField)
    (m' : TsMap)
    (h : shouldApplyOrderEvent st.tsMap oid ts = (false, m')) :
    handleRealtime me now st (.orderStatus oid p ts)
      = ({ st with tsMap := m' }, emptyRtOutput) := by
  simp [handleRealtime, h]

/-- The order_status branch never changes the timestamp map beyond what
the guard recorded. -/
theorem handleRealtime_orderStatus_tsMap (me now : String)
    (st : DriverState) (oid : String) (p : StatusPatch) (ts : TsField)
    (m' : TsMap)
    (h : shouldApplyOrderEvent st.tsMap oid ts = (true, m')) :
    (handleRealtime me now st (.orderStatus oid p ts)).1.tsMap = m' := by
  cases hps : p.status.isSome <;>
    simp [handleRealtime, h, applyOrders, hps]

/-- C10: a pool (unassigned) order_created event arriving while the driver
has an active delivery is dropped entirely — the order list, decline set,
notification feed and every other field are unchanged — while the
timestamp map keeps whatever the ordering guard recorded before the busy
check ran. -/
theorem busy_driver_drops_pool_order_created (me now : String)
    (st : DriverState) (o : Order) (ts : TsField)
    (hpool : o.driver_id = none)
    (hbusy : isDriverBusy me st.orders = true) :
    handleRealtime me now st (.orderCreated o ts)
      = ({ st with tsMap := (shouldApplyOrderEvent st.tsMap o.id ts).2 },
         emptyRtOutput) := by
  rcases hsa : shouldApplyOrderEvent st.tsMap o.id ts with ⟨b, m'⟩
  cases b with
  | false => simp [handleRealtime, hsa]
  | true => simp [handleRealtime, hsa, hpool, optStrTruthy, hbusy]

/-- The state of the C10 witness: driver d1 is delivering order A. -/
def c10State : DriverState :=
  { orders := [{ id := "A", driver_id := some "d1",
                 status := some "delivering" }],
    declined := [], persistedDeclined := [], hasLoaded := true,
    tsMap := [], notifications := [] }

/-- The pool order of the C10 witness. -/
def c10Order : Order := { id := "P", status := some "pending" }

/-- Witness for C10 at a concrete input: driver d1 is delivering order A
when pool order P arrives with timestamp 3. -/
theorem busy_driver_drops_pool_order_created_witness :
    handleRealtime "d1" "t1" c10State (.orderCreated c10Order (.num 3))
      = ({ c10State with
           tsMap := (shouldApplyOrderEvent c10State.tsMap c10Order.id
             (.num 3)).2 },
         emptyRtOutput) :=
  busy_driver_drops_pool_order_created "d1" "t1" c10State c10Order (.num 3)
    rfl (by decide)

/-- The initial state of the C6 counterexample: a fresh, loaded session. -/
def c6State : DriverState :=
  { orders := [], declined := [], persistedDeclined := [],
    hasLoaded := true, tsMap := [], notifications := [] }

/-- The C6 counterexample event: a status event for order X whose
timestamp field is the (falsy) number 0, naming another driver. -/
def c6Event : RtEvent :=
  .orderStatus "X" { status := some "accepted", driver_id := some "other" }
    (.num 0)

/-- C6 counterexample: delivering the identical timestamped event twice is
not a no-op — the zero timestamp is JS-falsy, so the guard never records
it, and the second delivery emits a second new-order toast for X just like
the first. -/
theorem duplicate_event_claim_false_at_zero_timestamp :
    (handleRealtime "me" "t1" c6State c6Event).2.toasts
      = [Toast.newOrder "X"]
    ∧ (handleRealtime "me" "t1"
          (handleRealtime "me" "t1" c6State c6Event).1 c6Event).2.toasts
      = [Toast.newOrder "X"]
    ∧ (handleRealtime "me" "t1" c6State c6Event).1.tsMap = [] := by decide

/-- C6 (amended): for a status event whose timestamp field is truthy and
parseable (so the ordering guard records it), applying the identical event
a second time is a strict no-op: the state — order list, decline set,
notification feed and recorded timestamps — is unchanged and no toast or
fetch is emitted.  Events with a zero, absent or unparseable timestamp
bypass the guard and may re-notify. -/
theorem duplicate_timestamped_event_idempotent (me now : String)
    (st : DriverState) (oid : String) (p : StatusPatch) (ts : TsField)
    (v : Int) (hp : tsParsed ts = some v) (ht : tsTruthy ts = true) :
    handleRealtime me now
        (handleRealtime me now st (.orderStatus oid p ts)).1
        (.orderStatus oid p ts)
      = ((handleRealtime me now st (.orderStatus oid p ts)).1,
         emptyRtOutput) := by
  by_cases hlt : lookupTs st.tsMap oid < v
  · have h1 := shouldApply_records st.tsMap oid ts v hp ht hlt
    have hmap := handleRealtime_orderStatus_tsMap me now st oid p ts _ h1
    have h2 : shouldApplyOrderEvent
        (handleRealtime me now st (.orderStatus oid p ts)).1.tsMap oid ts
        = (false,
           (handleRealtime me now st (.orderStatus oid p ts)).1.tsMap) := by
      rw [hmap]
      refine shouldApply_stale _ _ _ v hp ht ?_
      rw [lookupTs_setTs_self]
      exact lt_irrefl v
    rw [handleRealtime_orderStatus_rejected me now _ oid p ts _ h2]
  · have h1 := shouldApply_stale st.tsMap oid ts v hp ht hlt
    have hs1 : (handleRealtime me now st (.orderStatus oid p ts)).1 = st := by
      rw [handleRealtime_orderStatus_rejected me now st oid p ts _ h1]
    rw [hs1, handleRealtime_orderStatus_rejected me now st oid p ts _ h1]

/-- Witness for the amended C6 at a concrete input: the delivering event
for X at timestamp 9 is applied once; its duplicate is a no-op. -/
theorem duplicate_timestamped_event_idempotent_witness :
    handleRealtime "d1" "t1"
        (handleRealtime "d1" "t1" c2ScenarioState
          (.orderStatus "X" { status := some "delivering" } (.num 9))).1
        (.orderStatus "X" { status := some "delivering" } (.num 9))
      = ((handleRealtime "d1" "t1" c2ScenarioState
            (.orderStatus "X" { status := some "delivering" } (.num 9))).1,
         emptyRtOutput) :=
  duplicate_timestamped_event_idempotent "d1" "t1" c2ScenarioState "X"
    { status := some "delivering" } (.num 9) 9 rfl (by decide)

end Nova
